import Mathlib

/-!
Verification of the WRED policy layer of ns.py (ns/port/wred_port.py).

The source file defines two classes:

* `PolicyMap` — builds, at construction time, a table mapping each priority
  class to a pair of drop thresholds (`set_map` / `add_policy`);
* `WREDPort` — a RED output port that validates a flow-to-priority assignment
  at construction and, on each packet arrival (`put`), re-assigns the port's
  `min_threshold` / `max_threshold` fields from the table (`policy_mapper`)
  before delegating to the parent `REDPort.put`.

Python integer floor division `//` is embedded as `Int.fdiv`; Python float
division by 100 is embedded exactly over `ℚ`; a raised exception (failed
`assert`, `ValueError`, `KeyError`, `ZeroDivisionError`) is an `Except.error`.
The parent class `REDPort` is not part of the source slice; the two places
where its behaviour matters are modelled from the spec and say so in their
doc comments.
-/

namespace NsPy

/-- A policy entry stored in the policy map: the two thresholds as stored by
`add_policy`, i.e. the configured integer percentages divided by 100
(fractions of the queue limit), modelled as exact rationals. -/
structure Policy where
  min_threshold : ℚ
  max_threshold : ℚ
deriving Repr, DecidableEq

/-- The pair that `add_policy` stores for percentages `m` and `M`. -/
def Policy.ofPct (m M : Int) : Policy :=
  { min_threshold := (m : ℚ) / 100, max_threshold := (M : ℚ) / 100 }

/-- Embeds `PolicyMap.add_policy`: assert
`0 <= min_threshold <= max_threshold <= 100`, then store the two thresholds
divided by 100 under the key `priority_class`.  A failed assert raises, which
is modelled as `Except.error`; the Python dict insertion (the key is fresh in
every call the source makes) is modelled as appending the binding. -/
def add_policy (policies : List (Int × Policy))
    (priority_class min_threshold max_threshold : Int) :
    Except String (List (Int × Policy)) :=
  if 0 ≤ min_threshold ∧ min_threshold ≤ max_threshold ∧ max_threshold ≤ 100 then
    Except.ok (policies ++ [(priority_class, Policy.ofPct min_threshold max_threshold)])
  else
    Except.error "Invalid threshold setting!"

/-- The loop of `PolicyMap.set_map`: for `priority_class` in `range(k)`, call
`add_policy` with the running `min_threshold`, then advance it by
`step_size`. -/
def set_map_loop (max_threshold step_size : Int) :
    Nat → Int → Int → List (Int × Policy) → Except String (List (Int × Policy))
  | 0, _, _, acc => Except.ok acc
  | Nat.succ k, priority_class, min_threshold, acc =>
    match add_policy acc priority_class min_threshold max_threshold with
    | Except.error e => Except.error e
    | Except.ok acc2 =>
      set_map_loop max_threshold step_size k (priority_class + 1)
        (min_threshold + step_size) acc2

/-- Embeds `PolicyMap.set_map`: start from
`min_threshold = max_threshold // 2`, with
`step_size = (max_threshold - min_threshold) // num_priorities`, and add one
policy per class in `range(num_priorities)`.  Python `//` is floor division
(`Int.fdiv`); when `num_priorities = 0` the step computation raises
`ZeroDivisionError` before the loop. -/
def set_map (num_priorities max_threshold : Int) :
    Except String (List (Int × Policy)) :=
  if num_priorities = 0 then
    Except.error "integer division or modulo by zero"
  else
    set_map_loop max_threshold
      (Int.fdiv (max_threshold - Int.fdiv max_threshold 2) num_priorities)
      num_priorities.toNat 0 (Int.fdiv max_threshold 2) []

/-- Embeds the `PolicyMap` object: the table together with the two
configuration values stored by `__init__`. -/
structure PolicyMap where
  policies : List (Int × Policy)
  num_priorities : Int
  max_threshold : Int
deriving Repr, DecidableEq

/-- Embeds `PolicyMap.__init__`: record the configuration and build the table
via `set_map` (whose failed assert propagates out of the constructor). -/
def PolicyMap.init (num_priorities max_threshold : Int) : Except String PolicyMap :=
  match set_map num_priorities max_threshold with
  | Except.error e => Except.error e
  | Except.ok pols =>
    Except.ok { policies := pols, num_priorities := num_priorities,
                max_threshold := max_threshold }

/-- Embeds `PolicyMap.get_policy_map`. -/
def PolicyMap.get_policy_map (pm : PolicyMap) : List (Int × Policy) :=
  pm.policies

/-- The only packet field the WRED layer reads. -/
structure Packet where
  flow_id : Int
deriving Repr, DecidableEq

/-- State of a `WREDPort`.  The fields the source file reads or writes are
explicit: `min_threshold` / `max_threshold` (set through the parent
constructor and re-assigned by `policy_mapper`), the policy table and the
flow-to-class priority assignment.  All remaining parent `REDPort` state
(queue, EWMA average, drop-spacing count, ...) is opaque to the source file
and is collected in the type parameter `R` as the field `red`. -/
structure WREDPort (R : Type) where
  min_threshold : ℚ
  max_threshold : ℚ
  policies : List (Int × Policy)
  priorities : List (Int × Int)
  red : R
deriving DecidableEq

/-- Embeds `WREDPort.__init__`: the parent constructor receives
`max_threshold` and `min_threshold = max_threshold // 2`; the policy table is
`PolicyMap(num_priorities, max_threshold).get_policy_map()`; the `priorities`
argument is typed here, so the Python `isinstance(priorities, dict)` check
cannot fail; finally every assigned priority class is validated against the
table's keys, raising `ValueError` otherwise.  `REDPort.__init__` itself is
not part of the source slice: modelled from the spec (the configuration
surface consumes `max_threshold` as a percentage at construction), the parent
is taken to store the two passed threshold values on the port unchanged, with
the rest of its state supplied opaquely as `red0`. -/
def WREDPort.init {R : Type} (red0 : R) (priorities : List (Int × Int))
    (num_priorities max_threshold : Int) : Except String (WREDPort R) :=
  match PolicyMap.init num_priorities max_threshold with
  | Except.error e => Except.error e
  | Except.ok pm =>
    if priorities.all (fun fp => (pm.get_policy_map.lookup fp.2).isSome) then
      Except.ok { min_threshold := ((Int.fdiv max_threshold 2 : Int) : ℚ),
                  max_threshold := (max_threshold : ℚ),
                  policies := pm.get_policy_map,
                  priorities := priorities,
                  red := red0 }
    else
      Except.error "Error in given priorities!"

/-- Embeds `WREDPort.policy_mapper`: look up the priority class assigned to
`flow_id`, then that class's thresholds in the policy table, and assign both
to the port's threshold fields.  A missing key raises `KeyError`, modelled as
`Except.error`: no new state is produced, so the port is left unchanged. -/
def policy_mapper {R : Type} (port : WREDPort R) (flow_id : Int) :
    Except String (WREDPort R) :=
  match port.priorities.lookup flow_id with
  | none => Except.error "KeyError: flow_id"
  | some priority_class =>
    match port.policies.lookup priority_class with
    | none => Except.error "KeyError: priority_class"
    | some pol =>
      Except.ok { port with min_threshold := pol.min_threshold,
                            max_threshold := pol.max_threshold }

/-- Modelled from the spec: `REDPort.put` (the congestion controller) is not
part of the source slice; per the spec it reads the port's two threshold
fields and updates only the shared estimator / drop-spacing state, so it is
modelled as an arbitrary state transformer `redPut` of exactly that shape,
universally quantified in the theorems below. -/
def red_put {R : Type} (redPut : ℚ → ℚ → R → R) (port : WREDPort R) : WREDPort R :=
  { port with red := redPut port.min_threshold port.max_threshold port.red }

/-- Embeds `WREDPort.put`: refresh the two thresholds via `policy_mapper` (a
`KeyError` raised there propagates to the caller, and `super().put` never
runs), then delegate the admission decision to the parent. -/
def WREDPort.put {R : Type} (redPut : ℚ → ℚ → R → R) (port : WREDPort R)
    (packet : Packet) : Except String (WREDPort R) :=
  match policy_mapper port packet.flow_id with
  | Except.error e => Except.error e
  | Except.ok port2 => Except.ok (red_put redPut port2)

/-- A concrete `WREDPort` used by witnesses: flow 1 mapped to class 0, four
priority classes, global max threshold 40, trivial parent state. -/
def examplePort : WREDPort Unit :=
  { min_threshold := ((20 : Int) : ℚ), max_threshold := ((40 : Int) : ℚ),
    policies := [(0, Policy.ofPct 20 40), (1, Policy.ofPct 25 40),
                 (2, Policy.ofPct 30 40), (3, Policy.ofPct 35 40)],
    priorities := [(1, 0)], red := () }

/-- The port `examplePort` after `policy_mapper` installed class 0's stored
thresholds. -/
def examplePortAfter : WREDPort Unit :=
  { examplePort with min_threshold := (Policy.ofPct 20 40).min_threshold,
                     max_threshold := (Policy.ofPct 20 40).max_threshold }

/-- A concrete `WREDPort` whose priority assignment is empty, used to witness
the unassigned-flow failure. -/
def orphanPort : WREDPort Unit :=
  { examplePort with priorities := [] }

example : set_map 4 40 =
    Except.ok [(0, Policy.ofPct 20 40), (1, Policy.ofPct 25 40),
               (2, Policy.ofPct 30 40), (3, Policy.ofPct 35 40)] := rfl

example : set_map 1 200 = Except.error "Invalid threshold setting!" := rfl

example : set_map 1 41 = Except.ok [(0, Policy.ofPct 20 41)] := rfl

example : Policy.ofPct 20 40 = { min_threshold := 1/5, max_threshold := 2/5 } := by
  simp only [Policy.ofPct, Policy.mk.injEq]
  norm_num

/-- Helper: a full run of `set_map_loop` in which every threshold it installs
satisfies the `add_policy` assert returns the accumulator extended with one
entry per loop index, whose min threshold is the start value plus index times
step. -/
lemma set_map_loop_ok (M s : Int) (k : Nat) :
    ∀ (i m : Int) (acc : List (Int × Policy)),
      (∀ j : Nat, j < k → 0 ≤ m + (j : Int) * s ∧ m + (j : Int) * s ≤ M) →
      M ≤ 100 →
      set_map_loop M s k i m acc =
        Except.ok (acc ++ (List.range k).map
          (fun (j : Nat) => (i + (j : Int), Policy.ofPct (m + (j : Int) * s) M))) := by
  induction k with
  | zero =>
    intro i m acc _ _
    simp [set_map_loop]
  | succ k ih =>
    intro i m acc hbound hM
    have h0 := hbound 0 k.succ_pos
    simp only [Nat.cast_zero, zero_mul, add_zero] at h0
    have hguard : 0 ≤ m ∧ m ≤ M ∧ M ≤ 100 := ⟨h0.1, h0.2, hM⟩
    have hb2 : ∀ j : Nat, j < k →
        0 ≤ m + s + (j : Int) * s ∧ m + s + (j : Int) * s ≤ M := by
      intro j hj
      have := hbound (j + 1) (Nat.succ_lt_succ hj)
      push_cast at this ⊢
      constructor <;> nlinarith [this.1, this.2]
    simp only [set_map_loop, add_policy, if_pos hguard]
    rw [ih (i + 1) (m + s) (acc ++ [(i, Policy.ofPct m M)]) hb2 hM]
    congr 1
    rw [List.range_succ_eq_map, List.map_cons, List.map_map]
    simp only [Nat.cast_zero, zero_mul, add_zero, List.append_assoc,
      List.singleton_append]
    congr 1
    congr 1
    apply List.map_congr_left
    intro j hj
    simp only [Function.comp_apply]
    push_cast
    simp only [Prod.mk.injEq]
    refine ⟨by ring, ?_⟩
    congr 1
    ring

/-- Helper: full characterization of `set_map` for a positive class count and
an in-range global threshold — the table has one entry per class `j`, keyed by
`j`, holding the percentages `gmax // 2 + j * ((gmax - gmax // 2) // n)` and
`gmax`, each stored divided by 100. -/
lemma set_map_ok (n gmax : Int) (hn : 0 < n) (h0 : 0 ≤ gmax) (h1 : gmax ≤ 100) :
    set_map n gmax = Except.ok ((List.range n.toNat).map
      (fun (j : Nat) => ((j : Int),
        Policy.ofPct
          (Int.fdiv gmax 2 + (j : Int) * Int.fdiv (gmax - Int.fdiv gmax 2) n)
          gmax))) := by
  have hne : n ≠ 0 := ne_of_gt hn
  have hb0 : 0 ≤ Int.fdiv gmax 2 := by
    rw [Int.fdiv_eq_ediv _ (by norm_num)]
    exact Int.ediv_nonneg h0 (by norm_num)
  have hble : Int.fdiv gmax 2 ≤ gmax := by
    rw [Int.fdiv_eq_ediv _ (by norm_num)]
    exact Int.ediv_le_self _ h0
  have hs0 : 0 ≤ Int.fdiv (gmax - Int.fdiv gmax 2) n := by
    rw [Int.fdiv_eq_ediv _ (le_of_lt hn)]
    exact Int.ediv_nonneg (by omega) (le_of_lt hn)
  have hns : n * Int.fdiv (gmax - Int.fdiv gmax 2) n ≤ gmax - Int.fdiv gmax 2 := by
    rw [Int.fdiv_eq_ediv _ (le_of_lt hn), mul_comm]
    exact Int.ediv_mul_le _ hne
  have hbound : ∀ j : Nat, j < n.toNat →
      0 ≤ Int.fdiv gmax 2 + (j : Int) * Int.fdiv (gmax - Int.fdiv gmax 2) n ∧
      Int.fdiv gmax 2 + (j : Int) * Int.fdiv (gmax - Int.fdiv gmax 2) n ≤ gmax := by
    intro j hj
    have hjn : (j : Int) < n := by omega
    constructor
    · exact add_nonneg hb0 (mul_nonneg (Int.natCast_nonneg j) hs0)
    · nlinarith [hs0, hns, hjn]
  rw [set_map, if_neg hne,
    set_map_loop_ok gmax (Int.fdiv (gmax - Int.fdiv gmax 2) n) n.toNat 0
      (Int.fdiv gmax 2) [] hbound h1]
  simp

/-- Helper: looking a key up in a table whose entries are keyed by `i + j` for
`j` ranging over `range k` finds the entry at offset `c - i` exactly when that
offset lies in `[0, k)`. -/
lemma lookup_range_shift {α : Type} (k : Nat) :
    ∀ (g : Nat → α) (i c : Int),
      ((List.range k).map (fun (j : Nat) => (i + (j : Int), g j))).lookup c =
        if 0 ≤ c - i ∧ c - i < (k : Int) then some (g (c - i).toNat) else none := by
  induction k with
  | zero =>
    intro g i c
    simp only [List.range_zero, List.map_nil, List.lookup_nil]
    rw [if_neg]
    omega
  | succ k ih =>
    intro g i c
    rw [List.range_succ_eq_map, List.map_cons, List.map_map]
    by_cases hc : c = i
    · subst hc
      simp only [Nat.cast_zero, add_zero, List.lookup_cons_self]
      rw [if_pos (by omega)]
      simp
    · have hbeq : (c == i + ((0 : Nat) : Int)) = false := by
        simp only [Nat.cast_zero, add_zero, beq_eq_false_iff_ne, ne_eq]
        exact hc
      have hmaps : List.map ((fun (j : Nat) => (i + (j : Int), g j)) ∘ Nat.succ)
            (List.range k) =
          List.map (fun (j : Nat) => ((i + 1) + (j : Int), g (j + 1)))
            (List.range k) := by
        apply List.map_congr_left
        intro j hj
        simp only [Function.comp_apply, Nat.succ_eq_add_one, Prod.mk.injEq]
        exact ⟨by push_cast; ring, trivial⟩
      simp only [List.lookup_cons, hbeq]
      rw [hmaps, ih (fun j => g (j + 1)) (i + 1) c]
      by_cases hin : 0 ≤ c - (i + 1) ∧ c - (i + 1) < (k : Int)
      · rw [if_pos hin, if_pos (by omega)]
        congr 1
        have : (c - i).toNat = (c - (i + 1)).toNat + 1 := by omega
        rw [this]
      · rw [if_neg hin, if_neg (by omega)]

/-- Helper: a successful `set_map` with a positive class count forces the
global threshold into [0, 100], because the first `add_policy` assert ran. -/
lemma set_map_ok_bounds (n gmax : Int) (hn : 0 < n) (pols : List (Int × Policy))
    (h : set_map n gmax = Except.ok pols) : 0 ≤ gmax ∧ gmax ≤ 100 := by
  rw [set_map, if_neg (ne_of_gt hn)] at h
  obtain ⟨k, hk⟩ : ∃ k, n.toNat = k + 1 := ⟨n.toNat - 1, by omega⟩
  rw [hk] at h
  by_cases hguard : 0 ≤ Int.fdiv gmax 2 ∧ Int.fdiv gmax 2 ≤ gmax ∧ gmax ≤ 100
  · refine ⟨?_, hguard.2.2⟩
    by_contra hneg
    push_neg at hneg
    have : Int.fdiv gmax 2 < 0 := by
      rw [Int.fdiv_eq_ediv _ (by norm_num)]
      exact Int.ediv_neg' hneg (by norm_num)
    omega
  · simp only [set_map_loop, add_policy, if_neg hguard] at h
    exact absurd h (by simp)

/-- Helper: every entry of a successfully built table has its stored min
threshold between (gmax // 2)/100 and gmax/100, and its stored max threshold
exactly gmax/100. -/
lemma set_map_entry_bounds (n gmax : Int) (hn : 0 < n) (h0 : 0 ≤ gmax)
    (h1 : gmax ≤ 100) (pols : List (Int × Policy))
    (hok : set_map n gmax = Except.ok pols) :
    ∀ e ∈ pols, ((Int.fdiv gmax 2 : Int) : ℚ) / 100 ≤ e.2.min_threshold ∧
      e.2.min_threshold ≤ (gmax : ℚ) / 100 ∧
      e.2.max_threshold = (gmax : ℚ) / 100 := by
  rw [set_map_ok n gmax hn h0 h1] at hok
  injection hok with hok
  subst hok
  intro e he
  rw [List.mem_map] at he
  obtain ⟨j, hj, rfl⟩ := he
  rw [List.mem_range] at hj
  have hble : Int.fdiv gmax 2 ≤ gmax := by
    rw [Int.fdiv_eq_ediv _ (by norm_num)]
    exact Int.ediv_le_self _ h0
  have hs0 : 0 ≤ Int.fdiv (gmax - Int.fdiv gmax 2) n := by
    rw [Int.fdiv_eq_ediv _ (le_of_lt hn)]
    exact Int.ediv_nonneg (by omega) (le_of_lt hn)
  have hns : n * Int.fdiv (gmax - Int.fdiv gmax 2) n ≤ gmax - Int.fdiv gmax 2 := by
    rw [Int.fdiv_eq_ediv _ (le_of_lt hn), mul_comm]
    exact Int.ediv_mul_le _ (ne_of_gt hn)
  have hjn : (j : Int) < n := by omega
  have hup : Int.fdiv gmax 2 + (j : Int) * Int.fdiv (gmax - Int.fdiv gmax 2) n ≤ gmax := by
    nlinarith [hs0, hns, hjn]
  have hlow : Int.fdiv gmax 2 ≤
      Int.fdiv gmax 2 + (j : Int) * Int.fdiv (gmax - Int.fdiv gmax 2) n := by
    nlinarith [hs0, Int.natCast_nonneg j]
  refine ⟨?_, ?_, rfl⟩
  · apply div_le_div_of_nonneg_right ?_ (by norm_num)
    exact_mod_cast hlow
  · apply div_le_div_of_nonneg_right ?_ (by norm_num)
    exact_mod_cast hup

/-- Helper: a successful association-list lookup yields a member of the
list. -/
lemma mem_of_lookup {α β : Type} [BEq α] [LawfulBEq α] {l : List (α × β)}
    {k : α} {b : β} (h : l.lookup k = some b) : (k, b) ∈ l := by
  rcases List.lookup_eq_some_iff.1 h with ⟨l₁, l₂, rfl, -⟩
  simp

/-- Helper: lookup of a class `c` in the table built by `set_map` succeeds
exactly for `0 ≤ c < n` and returns that class's derived thresholds. -/
lemma set_map_lookup (n gmax : Int) (hn : 0 < n) (c : Int) :
    ((List.range n.toNat).map
      (fun (j : Nat) => ((j : Int),
        Policy.ofPct
          (Int.fdiv gmax 2 + (j : Int) * Int.fdiv (gmax - Int.fdiv gmax 2) n)
          gmax))).lookup c =
    if 0 ≤ c ∧ c < n then
      some (Policy.ofPct
        (Int.fdiv gmax 2 + c * Int.fdiv (gmax - Int.fdiv gmax 2) n) gmax)
    else none := by
  rw [show (List.range n.toNat).map
        (fun (j : Nat) => ((j : Int),
          Policy.ofPct
            (Int.fdiv gmax 2 + (j : Int) * Int.fdiv (gmax - Int.fdiv gmax 2) n)
            gmax)) =
      (List.range n.toNat).map
        (fun (j : Nat) => ((0 : Int) + (j : Int),
          Policy.ofPct
            (Int.fdiv gmax 2 + (j : Int) * Int.fdiv (gmax - Int.fdiv gmax 2) n)
            gmax))
    from List.map_congr_left (fun j _ => by simp)]
  rw [lookup_range_shift]
  by_cases hcn : 0 ≤ c ∧ c < n
  · rw [if_pos (by omega), if_pos hcn]
    have hcast : (((c - 0).toNat : Int)) = c := by omega
    rw [hcast]
  · rw [if_neg (by omega), if_neg hcn]

/-- Claim C1, counterexample: the claim quantifies over every integer
`global_max_threshold`, but at `num_priorities = 1`,
`global_max_threshold = 200` construction installs nothing — the first
`add_policy` assert fails, so building the policy table raises instead. -/
theorem C1_counterexample :
    set_map 1 200 = Except.error "Invalid threshold setting!" ∧
    (set_map 1 200).toOption.bind (fun pols => pols.lookup 0) = none :=
  ⟨rfl, rfl⟩

/-- Claim C1, amended (restricted to `global_max_threshold` in [0, 100], the
range §4.1's contract gives): for every positive `num_priorities` and every
`global_max_threshold` in [0, 100], constructing the policy table installs,
for each class `i` in `[0, num_priorities)`, the pair
`min_threshold(i) = base_min + i*step` and
`max_threshold(i) = global_max_threshold` (stored divided by 100), where
`base_min = global_max_threshold // 2` and
`step = (global_max_threshold - base_min) // num_priorities`, both floor
division; when `step = 0` all classes share `min_threshold = base_min`, and
this is accepted, not an error. -/
theorem C1_table_install (n gmax : Int) (hn : 0 < n) (h0 : 0 ≤ gmax)
    (h1 : gmax ≤ 100) (i : Int) (hi0 : 0 ≤ i) (hin : i < n) :
    (set_map n gmax).toOption.bind (fun pols => pols.lookup i) =
      some (Policy.ofPct
        (Int.fdiv gmax 2 + i * Int.fdiv (gmax - Int.fdiv gmax 2) n) gmax) := by
  rw [set_map_ok n gmax hn h0 h1]
  show ((List.range n.toNat).map _).lookup i = _
  rw [show (List.range n.toNat).map
        (fun (j : Nat) => ((j : Int),
          Policy.ofPct
            (Int.fdiv gmax 2 + (j : Int) * Int.fdiv (gmax - Int.fdiv gmax 2) n)
            gmax)) =
      (List.range n.toNat).map
        (fun (j : Nat) => ((0 : Int) + (j : Int),
          Policy.ofPct
            (Int.fdiv gmax 2 + (j : Int) * Int.fdiv (gmax - Int.fdiv gmax 2) n)
            gmax))
    from List.map_congr_left (fun j _ => by simp)]
  rw [lookup_range_shift, if_pos (by omega)]
  have hcast : (((i - 0).toNat : Int)) = i := by omega
  rw [hcast]

/-- Claim C1, witness: the amended theorem applied at `num_priorities = 4`,
`global_max_threshold = 40`, class 2. -/
theorem C1_witness :
    (set_map 4 40).toOption.bind (fun pols => pols.lookup 2) =
      some (Policy.ofPct
        (Int.fdiv 40 2 + 2 * Int.fdiv (40 - Int.fdiv 40 2) 4) 40) :=
  C1_table_install 4 40 (by norm_num) (by norm_num) (by norm_num) 2
    (by norm_num) (by norm_num)

/-- Claim C5, counterexample: at `num_priorities = 1`,
`global_max_threshold = 41` the single installed class has a min threshold of
20 percent, strictly below the exact (unfloored) half 41/2 = 20.5 percent, so
"at least global_max_threshold/2 (exact halving, not floored)" fails. -/
theorem C5_counterexample :
    set_map 1 41 = Except.ok [(0, Policy.ofPct 20 41)] ∧
    (Policy.ofPct 20 41).min_threshold * 100 < (41 : ℚ) / 2 := by
  refine ⟨rfl, ?_⟩
  simp only [Policy.ofPct]
  norm_num

/-- Claim C5, amended ("at least global_max_threshold/2" holds with the
floored half `global_max_threshold // 2`, not the exact half): in every
successfully built policy table, every class's min threshold is at least
`(global_max_threshold // 2)/100` and its max threshold equals
`global_max_threshold/100`. -/
theorem C5_threshold_invariant (n gmax : Int) (hn : 0 < n) (h0 : 0 ≤ gmax)
    (h1 : gmax ≤ 100) (pols : List (Int × Policy))
    (hok : set_map n gmax = Except.ok pols) :
    ∀ e ∈ pols, ((Int.fdiv gmax 2 : Int) : ℚ) / 100 ≤ e.2.min_threshold ∧
      e.2.max_threshold = (gmax : ℚ) / 100 := by
  intro e he
  have := set_map_entry_bounds n gmax hn h0 h1 pols hok e he
  exact ⟨this.1, this.2.2⟩

/-- Claim C5, witness: the amended theorem applied to the table built at
`num_priorities = 1`, `global_max_threshold = 41`, at its only entry. -/
theorem C5_witness :
    ((Int.fdiv 41 2 : Int) : ℚ) / 100 ≤ (Policy.ofPct 20 41).min_threshold ∧
    (Policy.ofPct 20 41).max_threshold = ((41 : Int) : ℚ) / 100 :=
  C5_threshold_invariant 1 41 (by norm_num) (by norm_num) (by norm_num)
    [(0, Policy.ofPct 20 41)] rfl ((0 : Int), Policy.ofPct 20 41) (by simp)

/-- Claim C6: building the policy table with `num_priorities = 4` and
`global_max_threshold = 40` yields `base_min = 20`, `step = 5`, and exactly
the four classes 0, 1, 2, 3 with percentage pairs (20, 40), (25, 40),
(30, 40), (35, 40), each stored divided by 100. -/
theorem C6_example_table :
    Int.fdiv 40 2 = 20 ∧ Int.fdiv (40 - Int.fdiv 40 2) 4 = 5 ∧
    set_map 4 40 = Except.ok
      [(0, Policy.ofPct 20 40), (1, Policy.ofPct 25 40),
       (2, Policy.ofPct 30 40), (3, Policy.ofPct 35 40)] :=
  ⟨rfl, rfl, rfl⟩

/-- Claim C8: for a positive class count, building the policy table with
`global_max_threshold` outside [0, 100] fails on the defensive `add_policy`
assert, while for every `global_max_threshold` inside [0, 100] the build
succeeds and no derived min threshold exceeds its max threshold. -/
theorem C8_range_check (n gmax : Int) (hn : 0 < n) :
    ((gmax < 0 ∨ 100 < gmax) →
      set_map n gmax = Except.error "Invalid threshold setting!") ∧
    (0 ≤ gmax → gmax ≤ 100 →
      ∃ pols, set_map n gmax = Except.ok pols ∧
        ∀ e ∈ pols, e.2.min_threshold ≤ e.2.max_threshold) := by
  constructor
  · intro hor
    have hguard : ¬ (0 ≤ Int.fdiv gmax 2 ∧ Int.fdiv gmax 2 ≤ gmax ∧ gmax ≤ 100) := by
      rcases hor with hneg | hbig
      · have : Int.fdiv gmax 2 < 0 := by
          rw [Int.fdiv_eq_ediv _ (by norm_num)]
          exact Int.ediv_neg' hneg (by norm_num)
        intro hcon
        omega
      · intro hcon
        omega
    obtain ⟨k, hk⟩ : ∃ k, n.toNat = k + 1 := ⟨n.toNat - 1, by omega⟩
    rw [set_map, if_neg (ne_of_gt hn), hk]
    simp only [set_map_loop, add_policy, if_neg hguard]
  · intro h0 h1
    refine ⟨_, set_map_ok n gmax hn h0 h1, ?_⟩
    intro e he
    have := set_map_entry_bounds n gmax hn h0 h1 _ (set_map_ok n gmax hn h0 h1) e he
    calc e.2.min_threshold ≤ (gmax : ℚ) / 100 := this.2.1
    _ = e.2.max_threshold := this.2.2.symm

/-- Claim C8, witness: at `num_priorities = 1` the build fails for
`global_max_threshold = 200`. -/
theorem C8_witness :
    set_map 1 200 = Except.error "Invalid threshold setting!" :=
  (C8_range_check 1 200 (by norm_num)).1 (Or.inr (by norm_num))

/-- Claim C7: every successfully built policy table (under the contract's
positive class count) has keys exactly 0, ..., num_priorities - 1 in order,
every class's min threshold at most its max threshold, and min thresholds
monotonically non-decreasing as the priority class increases. -/
theorem C7_table_invariants (n gmax : Int) (hn : 0 < n)
    (pols : List (Int × Policy)) (hok : set_map n gmax = Except.ok pols) :
    pols.map Prod.fst = (List.range n.toNat).map (fun (j : Nat) => (j : Int)) ∧
    (∀ e ∈ pols, e.2.min_threshold ≤ e.2.max_threshold) ∧
    (∀ c c' p p', pols.lookup c = some p → pols.lookup c' = some p' →
      c ≤ c' → p.min_threshold ≤ p'.min_threshold) := by
  obtain ⟨h0, h1⟩ := set_map_ok_bounds n gmax hn pols hok
  have hbounds := set_map_entry_bounds n gmax hn h0 h1 pols hok
  have hs0 : 0 ≤ Int.fdiv (gmax - Int.fdiv gmax 2) n := by
    have hble : Int.fdiv gmax 2 ≤ gmax := by
      rw [Int.fdiv_eq_ediv _ (by norm_num)]
      exact Int.ediv_le_self _ h0
    rw [Int.fdiv_eq_ediv _ (le_of_lt hn)]
    exact Int.ediv_nonneg (by omega) (le_of_lt hn)
  rw [set_map_ok n gmax hn h0 h1] at hok
  injection hok with hok
  subst hok
  refine ⟨?_, ?_, ?_⟩
  · rw [List.map_map]
    rfl
  · intro e he
    have := hbounds e he
    calc e.2.min_threshold ≤ (gmax : ℚ) / 100 := this.2.1
    _ = e.2.max_threshold := this.2.2.symm
  · intro c c' p p' hc hc' hcc
    rw [set_map_lookup n gmax hn c] at hc
    rw [set_map_lookup n gmax hn c'] at hc'
    by_cases hcn : 0 ≤ c ∧ c < n
    · rw [if_pos hcn] at hc
      by_cases hcn' : 0 ≤ c' ∧ c' < n
      · rw [if_pos hcn'] at hc'
        injection hc with hc
        injection hc' with hc'
        subst hc
        subst hc'
        simp only [Policy.ofPct]
        apply div_le_div_of_nonneg_right ?_ (by norm_num)
        have : Int.fdiv gmax 2 + c * Int.fdiv (gmax - Int.fdiv gmax 2) n ≤
            Int.fdiv gmax 2 + c' * Int.fdiv (gmax - Int.fdiv gmax 2) n := by
          nlinarith [hs0, hcc]
        exact_mod_cast this
      · rw [if_neg hcn'] at hc'
        exact absurd hc' (by simp)
    · rw [if_neg hcn] at hc
      exact absurd hc (by simp)

/-- Claim C7, witness: the invariants applied to the table built at
`num_priorities = 4`, `global_max_threshold = 40`; the keys are exactly
0, 1, 2, 3, class 0's min threshold is at most its max threshold, and min
thresholds of classes 1 and 2 are ordered. -/
theorem C7_witness :
    ([((0 : Int), Policy.ofPct 20 40), (1, Policy.ofPct 25 40),
      (2, Policy.ofPct 30 40), (3, Policy.ofPct 35 40)].map Prod.fst =
      (List.range (4 : Int).toNat).map (fun (j : Nat) => (j : Int))) ∧
    (Policy.ofPct 20 40).min_threshold ≤ (Policy.ofPct 20 40).max_threshold ∧
    (Policy.ofPct 25 40).min_threshold ≤ (Policy.ofPct 30 40).min_threshold :=
  ⟨(C7_table_invariants 4 40 (by norm_num) _ rfl).1,
   (C7_table_invariants 4 40 (by norm_num) _ rfl).2.1
     ((0 : Int), Policy.ofPct 20 40) (by simp),
   (C7_table_invariants 4 40 (by norm_num) _ rfl).2.2 1 2
     (Policy.ofPct 25 40) (Policy.ofPct 30 40) rfl rfl (by norm_num)⟩

/-- Claim C2: a successful `policy_mapper` changes only the port's two
threshold fields — to exactly the stored pair of the packet's priority class —
and leaves the policy table, the priority assignment and all parent state
untouched; `put` (for every congestion-controller delegate `redPut`, which is
modelled from the spec as acting only on the opaque parent state) likewise
leaves the policy table and the priority assignment unchanged. -/
theorem C2_reparameterize_only {R : Type} (redPut : ℚ → ℚ → R → R)
    (port : WREDPort R) (packet : Packet) (port2 : WREDPort R) :
    (policy_mapper port packet.flow_id = Except.ok port2 →
      port2.policies = port.policies ∧ port2.priorities = port.priorities ∧
      port2.red = port.red ∧
      ∃ c pol, port.priorities.lookup packet.flow_id = some c ∧
        port.policies.lookup c = some pol ∧
        port2.min_threshold = pol.min_threshold ∧
        port2.max_threshold = pol.max_threshold) ∧
    (WREDPort.put redPut port packet = Except.ok port2 →
      port2.policies = port.policies ∧ port2.priorities = port.priorities) := by
  constructor
  · intro h
    simp only [policy_mapper] at h
    split at h
    · simp at h
    · rename_i c hc
      split at h
      · simp at h
      · rename_i pol hp
        simp only [Except.ok.injEq] at h
        subst h
        exact ⟨rfl, rfl, rfl, c, pol, hc, hp, rfl, rfl⟩
  · intro h
    simp only [WREDPort.put] at h
    split at h
    · simp at h
    · rename_i p1 hpm
      simp only [Except.ok.injEq] at h
      subst h
      simp only [policy_mapper] at hpm
      split at hpm
      · simp at hpm
      · rename_i c hc
        split at hpm
        · simp at hpm
        · rename_i pol hp
          simp only [Except.ok.injEq] at hpm
          subst hpm
          exact ⟨rfl, rfl⟩

/-- Claim C2, witness: the frame property applied to the concrete example
port, its packet from flow 1, and the port state after the arrival. -/
theorem C2_witness :
    examplePortAfter.policies = examplePort.policies ∧
    examplePortAfter.priorities = examplePort.priorities :=
  (C2_reparameterize_only (fun _ _ r => r) examplePort { flow_id := 1 }
    examplePortAfter).2 rfl

/-- Claim C9: when a packet's flow id has no entry in the priority
assignment, `put` surfaces the lookup failure (`KeyError`) to the caller —
already inside `policy_mapper`, before the parent's admission decision could
run for any delegate `redPut` — rather than admitting, dropping or defaulting
the packet; no successor state is produced, so the port's threshold fields
are not updated. -/
theorem C9_unassigned_flow {R : Type} (redPut : ℚ → ℚ → R → R)
    (port : WREDPort R) (packet : Packet)
    (h : port.priorities.lookup packet.flow_id = none) :
    WREDPort.put redPut port packet = Except.error "KeyError: flow_id" ∧
    policy_mapper port packet.flow_id = Except.error "KeyError: flow_id" := by
  have hpm : policy_mapper port packet.flow_id =
      Except.error "KeyError: flow_id" := by
    simp only [policy_mapper, h]
  exact ⟨by simp only [WREDPort.put, hpm], hpm⟩

/-- Claim C9, witness: the unassigned-flow failure at the concrete port whose
priority assignment is empty. -/
theorem C9_witness :
    WREDPort.put (fun _ _ r => r) orphanPort { flow_id := 1 } =
      Except.error "KeyError: flow_id" ∧
    policy_mapper orphanPort 1 = Except.error "KeyError: flow_id" :=
  C9_unassigned_flow (fun _ _ r => r) orphanPort { flow_id := 1 } rfl

/-- Claim C3: if the priority assignment maps some flow to a class outside
the installed classes 0, ..., num_priorities - 1, the `WREDPort` construction
fails (`ValueError`); and whenever construction succeeds, the whole
assignment has been validated, so the priority-class lookup inside
`policy_mapper` succeeds for every assigned flow — no per-packet operation
can fail with an unknown priority class. -/
theorem C3_eager_validation {R : Type} (red0 : R)
    (priorities : List (Int × Int)) (n gmax : Int)
    (hn : 0 < n) (h0 : 0 ≤ gmax) (h1 : gmax ≤ 100) :
    ((∃ fc, fc ∈ priorities ∧ ¬ (0 ≤ fc.2 ∧ fc.2 < n)) →
      WREDPort.init red0 priorities n gmax =
        Except.error "Error in given priorities!") ∧
    (∀ port : WREDPort R,
      WREDPort.init red0 priorities n gmax = Except.ok port →
      ∀ f c, port.priorities.lookup f = some c →
        (port.policies.lookup c).isSome) := by
  have htab := set_map_ok n gmax hn h0 h1
  constructor
  · rintro ⟨fc, hmem, hbad⟩
    simp only [WREDPort.init, PolicyMap.init, htab, PolicyMap.get_policy_map]
    rw [if_neg]
    intro hall
    rw [List.all_eq_true] at hall
    have := hall fc hmem
    rw [set_map_lookup n gmax hn fc.2, if_neg hbad] at this
    simp at this
  · intro port hok f c hf
    simp only [WREDPort.init, PolicyMap.init, htab,
      PolicyMap.get_policy_map] at hok
    split at hok
    · rename_i hall
      simp only [Except.ok.injEq] at hok
      subst hok
      rw [List.all_eq_true] at hall
      exact hall (f, c) (mem_of_lookup hf)
    · simp at hok

/-- Claim C3, witness: a priority assignment sending flow 5 to class 9 with
`num_priorities = 8` fails construction. -/
theorem C3_witness :
    WREDPort.init () [((5 : Int), (9 : Int))] 8 40 =
      Except.error "Error in given priorities!" :=
  (C3_eager_validation () [((5 : Int), (9 : Int))] 8 40 (by norm_num)
    (by norm_num) (by norm_num)).1 ⟨(5, 9), by simp, by norm_num⟩

/-- Claim C4, counterexample: the conversion in `add_policy` divides the
percentage by 100 but never scales by the queue capacity (capacity is not
even an input), and `policy_mapper` installs the stored fraction unchanged:
binding the table built from `num_priorities = 4`,
`global_max_threshold = 40` to the example port installs `min_threshold`
1/5 — not the 200 that scaling by capacity 1000 would give. -/
theorem C4_counterexample :
    add_policy [] 0 20 40 = Except.ok [(0, Policy.ofPct 20 40)] ∧
    policy_mapper examplePort 1 = Except.ok examplePortAfter ∧
    examplePortAfter.min_threshold = 1 / 5 ∧ ((1 : ℚ) / 5 ≠ 200) := by
  refine ⟨rfl, rfl, ?_, by norm_num⟩
  show (Policy.ofPct 20 40).min_threshold = 1 / 5
  simp only [Policy.ofPct]
  norm_num

/-- Claim C4, amended: every threshold percentage in the policy table is
converted to a fraction of the queue limit by dividing by 100 only — no
scaling by the port's capacity occurs anywhere in the policy layer — so
build(num_priorities = 4, global_max_threshold = 40) stores the threshold
pairs (1/5, 2/5), (1/4, 2/5), (3/10, 2/5), (7/20, 2/5). -/
theorem C4_divide_by_100_only (policies : List (Int × Policy)) (c m M : Int)
    (h : 0 ≤ m ∧ m ≤ M ∧ M ≤ 100) :
    add_policy policies c m M = Except.ok (policies ++
      [(c, { min_threshold := (m : ℚ) / 100, max_threshold := (M : ℚ) / 100 })]) ∧
    set_map 4 40 = Except.ok
      [(0, { min_threshold := (1 : ℚ) / 5, max_threshold := (2 : ℚ) / 5 }),
       (1, { min_threshold := (1 : ℚ) / 4, max_threshold := (2 : ℚ) / 5 }),
       (2, { min_threshold := (3 : ℚ) / 10, max_threshold := (2 : ℚ) / 5 }),
       (3, { min_threshold := (7 : ℚ) / 20, max_threshold := (2 : ℚ) / 5 })] := by
  constructor
  · rw [add_policy, if_pos h]
    rfl
  · rw [show set_map 4 40 = Except.ok
        [(0, Policy.ofPct 20 40), (1, Policy.ofPct 25 40),
         (2, Policy.ofPct 30 40), (3, Policy.ofPct 35 40)] from rfl]
    simp only [Policy.ofPct, Except.ok.injEq, List.cons.injEq, Prod.mk.injEq,
      Policy.mk.injEq, and_true, true_and]
    norm_num

/-- Claim C4, witness: the amended conversion applied to the empty table,
class 0, percentages 20 and 40. -/
theorem C4_witness :
    add_policy [] 0 20 40 = Except.ok ([] ++
      [((0 : Int), { min_threshold := ((20 : Int) : ℚ) / 100,
                     max_threshold := ((40 : Int) : ℚ) / 100 })]) ∧
    set_map 4 40 = Except.ok
      [(0, { min_threshold := (1 : ℚ) / 5, max_threshold := (2 : ℚ) / 5 }),
       (1, { min_threshold := (1 : ℚ) / 4, max_threshold := (2 : ℚ) / 5 }),
       (2, { min_threshold := (3 : ℚ) / 10, max_threshold := (2 : ℚ) / 5 }),
       (3, { min_threshold := (7 : ℚ) / 20, max_threshold := (2 : ℚ) / 5 })] :=
  C4_divide_by_100_only [] 0 20 40 (by norm_num)

/-- Claim C10: the thresholds installed at construction and the thresholds
installed by a packet arrival are in different units.  At construction the
port holds the integer percentages `max_threshold = gmax` and
`min_threshold = gmax // 2` (the parent `REDPort.__init__`, absent from the
source slice, is modelled from the spec as storing the two passed values);
after any successful `put`, both fields hold the policy table's stored
values — percentages divided by 100, fractions in [0, 1] — so for
`gmax = 40` the max threshold is 40 before the first arrival and
40/100 = 0.4 after it. -/
theorem C10_unit_mismatch {R : Type} (red0 : R) (redPut : ℚ → ℚ → R → R)
    (priorities : List (Int × Int)) (n gmax : Int)
    (port port2 : WREDPort R) (packet : Packet)
    (hn : 0 < n) (h0 : 0 ≤ gmax) (h1 : gmax ≤ 100)
    (hinit : WREDPort.init red0 priorities n gmax = Except.ok port)
    (hput : WREDPort.put redPut port packet = Except.ok port2) :
    port.max_threshold = (gmax : ℚ) ∧
    port.min_threshold = ((Int.fdiv gmax 2 : Int) : ℚ) ∧
    port2.max_threshold = (gmax : ℚ) / 100 ∧
    0 ≤ port2.min_threshold ∧ port2.min_threshold ≤ 1 ∧
    0 ≤ port2.max_threshold ∧ port2.max_threshold ≤ 1 := by
  have htab := set_map_ok n gmax hn h0 h1
  simp only [WREDPort.init, PolicyMap.init, htab,
    PolicyMap.get_policy_map] at hinit
  split at hinit
  case isFalse => simp at hinit
  case isTrue hall =>
  simp only [Except.ok.injEq] at hinit
  subst hinit
  refine ⟨rfl, rfl, ?_⟩
  simp only [WREDPort.put] at hput
  split at hput
  · simp at hput
  · rename_i p1 hpm
    simp only [Except.ok.injEq] at hput
    subst hput
    simp only [policy_mapper] at hpm
    split at hpm
    · simp at hpm
    · rename_i c hc
      split at hpm
      · simp at hpm
      · rename_i pol hp
        simp only [Except.ok.injEq] at hpm
        subst hpm
        have hbounds := set_map_entry_bounds n gmax hn h0 h1 _ htab
          (c, pol) (mem_of_lookup hp)
        have hfd0 : (0 : ℚ) ≤ ((Int.fdiv gmax 2 : Int) : ℚ) / 100 := by
          have hfd : (0 : Int) ≤ Int.fdiv gmax 2 := by
            rw [Int.fdiv_eq_ediv _ (by norm_num)]
            exact Int.ediv_nonneg h0 (by norm_num)
          have hq : (0 : ℚ) ≤ ((Int.fdiv gmax 2 : Int) : ℚ) := by exact_mod_cast hfd
          exact div_nonneg hq (by norm_num)
        have hg0 : (0 : ℚ) ≤ (gmax : ℚ) / 100 :=
          div_nonneg (by exact_mod_cast h0) (by norm_num)
        have hg1 : (gmax : ℚ) / 100 ≤ 1 := by
          rw [div_le_one (by norm_num)]
          exact_mod_cast h1
        refine ⟨hbounds.2.2, ?_, ?_, ?_, ?_⟩
        · exact le_trans hfd0 hbounds.1
        · exact le_trans hbounds.2.1 hg1
        · show (0 : ℚ) ≤ pol.max_threshold
          rw [hbounds.2.2]
          exact hg0
        · show pol.max_threshold ≤ 1
          rw [hbounds.2.2]
          exact hg1

/-- Claim C10, witness: the unit mismatch at the concrete example — with
`global_max_threshold = 40` the port's max threshold is 40 at construction
and 40/100 after the first arrival. -/
theorem C10_witness :
    examplePort.max_threshold = ((40 : Int) : ℚ) ∧
    examplePort.min_threshold = ((Int.fdiv 40 2 : Int) : ℚ) ∧
    examplePortAfter.max_threshold = ((40 : Int) : ℚ) / 100 ∧
    0 ≤ examplePortAfter.min_threshold ∧ examplePortAfter.min_threshold ≤ 1 ∧
    0 ≤ examplePortAfter.max_threshold ∧ examplePortAfter.max_threshold ≤ 1 :=
  C10_unit_mismatch () (fun _ _ r => r) [(1, 0)] 4 40 examplePort
    examplePortAfter { flow_id := 1 } (by norm_num) (by norm_num)
    (by norm_num) rfl rfl

end NsPy
